import Mathlib

/-!
A shallow embedding of the validation and transactional core of
`SCMS_postgres.py` (Claims Management System).

Conventions of the embedding:
* Python `datetime.date` values are day numbers (`Int`); `datetime.datetime`
  values are timestamps in seconds (`Int`).  `PyDate` distinguishes the two,
  mirroring the `isinstance(_, datetime.datetime)` dispatch in the source.
  Python's `timedelta.days` is floor division of the difference by 86400,
  i.e. `Int.fdiv`; subtracting two `date`s yields whole days.
* Postgres `DATE` columns store day numbers; inserting a datetime truncates
  it to its day, matching the timestamp-to-date cast.
* Amounts (`float` inputs, `DECIMAL` columns) are `Rat`: only order
  comparisons are performed on them, never arithmetic.
* Exceptions become `Except Err`; exact message strings are elided, the
  exception class is what the embedding tracks.
* `_execute_transaction` becomes `execute_transaction`: the unit of work runs
  against the committed store and produces a transaction-local store; only a
  successful unit of work commits it.  A `psycopg2.Error` is rolled back and
  re-raised as `DatabaseError`; any other exception propagates and the
  connection closes without commit, which also discards the local writes.
* Nested calls such as `self.get_policy(...)` inside an update's unit of work
  open a fresh connection in the source, so they read the *committed* store,
  not the transaction-local one; the embedding passes the committed store to
  them explicitly.
* `datetime.now()` is a parameter `now` of the operations that consult it
  (the source calls it twice microseconds apart; the embedding uses one value).
* Unbounded strings and exact rationals abstract the `VARCHAR(n)` /
  `DECIMAL(10,2)` size limits; `PRIMARY KEY`, `UNIQUE` and `FOREIGN KEY`
  constraints from `init_db` are modelled on the write operations.
-/

deriving instance DecidableEq for Except

/-- Seconds per day, for Python's datetime arithmetic. -/
def secPerDay : Int := 86400

/-- A Python date or datetime value: `DATE` columns yield `date` (a day
number), API inputs are `datetime` (a timestamp in seconds). -/
inductive PyDate where
  | date (day : Int)
  | datetime (ts : Int)
deriving DecidableEq

/-- The `.date()` normalization applied by the `isinstance` branches of
`_validate_policy` and `_validate_claim`: a datetime is truncated to the day
it falls in. -/
def PyDate.toDay : PyDate → Int
  | .date d => d
  | .datetime ts => Int.fdiv ts secPerDay

/-- Python `>=` between two date/datetime values, as used on
`policy.start_date >= policy.end_date`: comparing a `date` with a `datetime`
raises `TypeError` in Python. -/
def pyGe : PyDate → PyDate → Except Unit Bool
  | .date a, .date b => .ok (decide (b ≤ a))
  | .datetime a, .datetime b => .ok (decide (b ≤ a))
  | _, _ => .error ()

/-- The exception classes of the source.  `pg` is a `psycopg2.Error` raised
inside a unit of work; `_execute_transaction` turns it into `database`
(`DatabaseError`).  `typeErr` / `valueErr` stand for Python's `TypeError`
(mixed date/datetime comparison) and `ValueError` (unknown status label in
`ClaimStatus(...)`), which the source never catches. -/
inductive Err where
  | validation
  | businessRule
  | pg
  | database
  | typeErr
  | valueErr
deriving DecidableEq

/-- The `ClaimStatus` enumeration. -/
inductive ClaimStatus where
  | submitted
  | under_review
  | approved
  | rejected
  | closed
deriving DecidableEq

/-- The string label each status is persisted as (`status.value`). -/
def ClaimStatus.value : ClaimStatus → String
  | .submitted => "Submitted"
  | .under_review => "Under Review"
  | .approved => "Approved"
  | .rejected => "Rejected"
  | .closed => "Closed"

/-- Reconstructing a `ClaimStatus` from its stored label
(`ClaimStatus(result['status'])`); an unknown label raises `ValueError`. -/
def statusOfLabel (s : String) : Option ClaimStatus :=
  if s = "Submitted" then some .submitted
  else if s = "Under Review" then some .under_review
  else if s = "Approved" then some .approved
  else if s = "Rejected" then some .rejected
  else if s = "Closed" then some .closed
  else none

/-- The `Policyholder` dataclass (API input shape). -/
structure Policyholder where
  id : Nat
  name : String
  contact_number : String
  email : String
  date_of_birth : PyDate
deriving DecidableEq

/-- The `Policy` dataclass (API input shape). -/
structure Policy where
  id : Nat
  policyholder_id : Nat
  type : String
  start_date : PyDate
  end_date : PyDate
  coverage_amount : Rat
  premium : Rat
deriving DecidableEq

/-- The `Claim` dataclass (API input shape). -/
structure Claim where
  id : Nat
  policy_id : Nat
  date_of_incident : PyDate
  description : String
  amount : Rat
  status : ClaimStatus
  date_submitted : PyDate
deriving DecidableEq

/-- A row of the `policyholders` table (`date_of_birth` is a `DATE`). -/
structure PHRow where
  id : Nat
  name : String
  contact_number : String
  email : String
  date_of_birth : Int
deriving DecidableEq

/-- A row of the `policies` table. -/
structure PolRow where
  id : Nat
  policyholder_id : Nat
  type : String
  start_date : Int
  end_date : Int
  coverage_amount : Rat
  premium : Rat
deriving DecidableEq

/-- A row of the `claims` table (`status` is stored as its string label). -/
structure ClRow where
  id : Nat
  policy_id : Nat
  date_of_incident : Int
  description : String
  amount : Rat
  status : String
  date_submitted : Int
deriving DecidableEq

/-- The persistent store: the three entity tables created by `init_db`
(`login_users` plays no part in the claims under study). -/
structure DB where
  policyholders : List PHRow
  policies : List PolRow
  claims : List ClRow
deriving DecidableEq

/-- `SELECT * FROM policyholders WHERE id = ...` (first matching row). -/
def findPH (l : List PHRow) (i : Nat) : Option PHRow :=
  l.find? (fun r => r.id == i)

/-- `SELECT * FROM policies WHERE id = ...`. -/
def findPol (l : List PolRow) (i : Nat) : Option PolRow :=
  l.find? (fun r => r.id == i)

/-- `SELECT * FROM claims WHERE id = ...`. -/
def findCl (l : List ClRow) (i : Nat) : Option ClRow :=
  l.find? (fun r => r.id == i)

/-- `Policy(**result)`: a policies row read back as a `Policy` object; the
`DATE` columns come back as `date` values. -/
def PolRow.toPolicy (r : PolRow) : Policy :=
  ⟨r.id, r.policyholder_id, r.type, .date r.start_date, .date r.end_date,
    r.coverage_amount, r.premium⟩

/-- `Claim(**result)` after `ClaimStatus(result['status'])`: a claims row read
back as a `Claim` object; an unrecognized status label raises `ValueError`. -/
def ClRow.toClaim (r : ClRow) : Except Err Claim :=
  match statusOfLabel r.status with
  | some st =>
      .ok ⟨r.id, r.policy_id, .date r.date_of_incident, r.description,
        r.amount, st, .date r.date_submitted⟩
  | none => .error .valueErr

/-- The search for a literal `'.'` (preceded only by non-`'@'` characters and
followed by a non-`'@'` character) closing the email regex. -/
def emailTailDot : List Char → Bool
  | [] => false
  | c :: rest =>
    if c = '@' then false
    else if c = '.' then
      match rest with
      | [] => false
      | d :: _ => if d = '@' then emailTailDot rest else true
    else emailTailDot rest

/-- After the `'@'`: at least one non-`'@'` character, then `emailTailDot`. -/
def emailAfterAt : List Char → Bool
  | [] => false
  | c :: rest => if c = '@' then false else emailTailDot rest

/-- The search for `'@'` ending the `[^@]+` left part of the email regex. -/
def emailFindAt : List Char → Bool
  | [] => false
  | c :: rest => if c = '@' then emailAfterAt rest else emailFindAt rest

/-- `re.match(r"[^@]+@[^@]+\.[^@]+", email)`: a prefix of the string
decomposes as nonempty-`'@'`-free, `'@'`, nonempty-`'@'`-free, `'.'`, then at
least one non-`'@'` character. -/
def emailOk (s : String) : Bool :=
  match s.toList with
  | [] => false
  | c :: rest => if c = '@' then false else emailFindAt rest

/-- `l.all Char.isDigit`, written out for easy unfolding. -/
def allDigits : List Char → Bool
  | [] => true
  | c :: rest => c.isDigit && allDigits rest

/-- `\d{9,15}$`: between 9 and 15 digits consuming the whole remainder. -/
def phoneCore (l : List Char) : Bool :=
  decide (9 ≤ l.length) && decide (l.length ≤ 15) && allDigits l

/-- `re.match(r"^\+?1?\d{9,15}$", phone)`: an optional `'+'`, an optional
`'1'` (the matcher backtracks over it), then 9 to 15 digits to the end. -/
def phoneOk (s : String) : Bool :=
  let l := s.toList
  let l1 := match l with
    | '+' :: r => r
    | _ => l
  match l1 with
  | '1' :: r => phoneCore r || phoneCore l1
  | _ => phoneCore l1

/-- `_validate_email`: raises `ValidationError` when the regex fails. -/
def validate_email (email : String) : Except Err Unit :=
  if emailOk email then .ok () else .error .validation

/-- `_validate_phone_number`: raises `ValidationError` when the regex fails. -/
def validate_phone_number (phone : String) : Except Err Unit :=
  if phoneOk phone then .ok () else .error .validation

/-- `_validate_date_of_birth`: compares the raw datetime against
`datetime.now()` — no date-only normalization here.  A `date` argument would
raise `TypeError` in Python (the routes always pass datetimes). -/
def validate_date_of_birth (now : Int) (dob : PyDate) : Except Err Unit :=
  match dob with
  | .date _ => .error .typeErr
  | .datetime ts =>
    if now < ts then .error .validation
    else if Int.fdiv (now - ts) secPerDay < 18 * 365 then .error .businessRule
    else .ok ()

/-- `_validate_policyholder`: email, then phone, then date of birth. -/
def validate_policyholder (now : Int) (p : Policyholder) : Except Err Unit :=
  match validate_email p.email with
  | .error e => .error e
  | .ok _ =>
    match validate_phone_number p.contact_number with
    | .error e => .error e
    | .ok _ => validate_date_of_birth now p.date_of_birth

/-- `_validate_policy`: the policyholder lookup runs on the unit of work's
own cursor (`tx`); `start_date >= end_date` compares the raw values, while
the age check first normalizes both dates to day numbers. -/
def validate_policy (tx : DB) (p : Policy) : Except Err Unit :=
  match findPH tx.policyholders p.policyholder_id with
  | none => .error .validation
  | some ph =>
    match pyGe p.start_date p.end_date with
    | .error _ => .error .typeErr
    | .ok true => .error .validation
    | .ok false =>
      if p.coverage_amount ≤ 0 then .error .validation
      else if p.premium ≤ 0 then .error .validation
      else if p.start_date.toDay - ph.date_of_birth < 18 * 365 then
        .error .businessRule
      else .ok ()

/-- `_validate_claim`: the policy lookup runs on the unit of work's own
cursor (`tx`); all four dates are normalized to day numbers before any
comparison. -/
def validate_claim (tx : DB) (c : Claim) : Except Err Unit :=
  match findPol tx.policies c.policy_id with
  | none => .error .validation
  | some pol =>
    if c.date_of_incident.toDay < pol.start_date ∨
        pol.end_date < c.date_of_incident.toDay then .error .validation
    else if c.amount ≤ 0 ∨ pol.coverage_amount < c.amount then
      .error .validation
    else if c.date_submitted.toDay < c.date_of_incident.toDay then
      .error .validation
    else if 30 < c.date_submitted.toDay - c.date_of_incident.toDay then
      .error .businessRule
    else .ok ()

/-- `_execute_transaction`: the unit of work `f` maps the committed store to
a result and a transaction-local store.  Success commits the local store; a
`psycopg2.Error` rolls back and is re-raised as `DatabaseError`; any other
exception propagates and the connection closes uncommitted, discarding the
local writes either way. -/
def execute_transaction {α : Type} (db : DB) (f : DB → Except Err (α × DB)) :
    Except Err α × DB :=
  match f db with
  | .ok (a, tx) => (.ok a, tx)
  | .error .pg => (.error .database, db)
  | .error e => (.error e, db)

/-- `INSERT INTO policyholders ...`: the `PRIMARY KEY` and `UNIQUE(email)`
constraints raise a `psycopg2.Error` on conflict. -/
def insertPH (tx : DB) (r : PHRow) : Except Err DB :=
  if tx.policyholders.any (fun q => q.id == r.id || q.email == r.email) then
    .error .pg
  else .ok { tx with policyholders := tx.policyholders ++ [r] }

/-- `INSERT INTO policies ...`: `PRIMARY KEY` and the `FOREIGN KEY` to
`policyholders` raise a `psycopg2.Error` on violation. -/
def insertPol (tx : DB) (r : PolRow) : Except Err DB :=
  if tx.policies.any (fun q => q.id == r.id) then .error .pg
  else if tx.policyholders.any (fun q => q.id == r.policyholder_id) then
    .ok { tx with policies := tx.policies ++ [r] }
  else .error .pg

/-- `INSERT INTO claims ...`: `PRIMARY KEY` and the `FOREIGN KEY` to
`policies` raise a `psycopg2.Error` on violation. -/
def insertCl (tx : DB) (r : ClRow) : Except Err DB :=
  if tx.claims.any (fun q => q.id == r.id) then .error .pg
  else if tx.policies.any (fun q => q.id == r.policy_id) then
    .ok { tx with claims := tx.claims ++ [r] }
  else .error .pg

/-- `get_policyholder` stripped to its read (used for the nested
`self.get_policyholder(...)` call, whose fresh connection sees the committed
store). -/
def get_policyholder_row (db : DB) (i : Nat) : Option PHRow :=
  findPH db.policyholders i

/-- `get_policy` stripped to its read. -/
def get_policy_row (db : DB) (i : Nat) : Option PolRow :=
  findPol db.policies i

/-- `get_claim` stripped to its read: the row is reconstructed into a `Claim`
object, which can raise `ValueError` on a corrupt status label. -/
def get_claim_read (db : DB) (i : Nat) : Except Err (Option Claim) :=
  match findCl db.claims i with
  | none => .ok none
  | some r =>
    match r.toClaim with
    | .ok c => .ok (some c)
    | .error e => .error e

/-- `get_claim`: a point lookup in its own unit of work. -/
def get_claim (db : DB) (i : Nat) : Except Err (Option Claim) × DB :=
  execute_transaction db (fun tx =>
    match get_claim_read tx i with
    | .ok c => .ok (c, tx)
    | .error e => .error e)

/-- `create_policyholder`: validate, then insert (`date_of_birth` lands in a
`DATE` column). -/
def create_policyholder (now : Int) (db : DB) (p : Policyholder) :
    Except Err Unit × DB :=
  execute_transaction db (fun tx =>
    match validate_policyholder now p with
    | .error e => .error e
    | .ok _ =>
      match insertPH tx ⟨p.id, p.name, p.contact_number, p.email,
          p.date_of_birth.toDay⟩ with
      | .error e => .error e
      | .ok tx1 => .ok ((), tx1))

/-- `create_policy`: validate against the unit of work's cursor, then
insert. -/
def create_policy (db : DB) (p : Policy) : Except Err Unit × DB :=
  execute_transaction db (fun tx =>
    match validate_policy tx p with
    | .error e => .error e
    | .ok _ =>
      match insertPol tx ⟨p.id, p.policyholder_id, p.type, p.start_date.toDay,
          p.end_date.toDay, p.coverage_amount, p.premium⟩ with
      | .error e => .error e
      | .ok tx1 => .ok ((), tx1))

/-- `create_claim`: validate against the unit of work's cursor, then insert
(the status is stored as its string label). -/
def create_claim (db : DB) (c : Claim) : Except Err Unit × DB :=
  execute_transaction db (fun tx =>
    match validate_claim tx c with
    | .error e => .error e
    | .ok _ =>
      match insertCl tx ⟨c.id, c.policy_id, c.date_of_incident.toDay,
          c.description, c.amount, c.status.value, c.date_submitted.toDay⟩ with
      | .error e => .error e
      | .ok tx1 => .ok ((), tx1))

/-- Truthiness of an optional string argument: Python's `if name:` treats
`None` and the empty string alike. -/
def strSet : Option String → Bool
  | some s => s != ""
  | none => false

/-- The row rewrite performed by `update_policyholder`'s single `UPDATE`
statement: only truthy supplied fields are rewritten. -/
def updPHRow (r : PHRow) (name contact_number email : Option String)
    (date_of_birth : Option PyDate) : PHRow :=
  { r with
    name := match name with
      | some s => if s = "" then r.name else s
      | none => r.name,
    contact_number := match contact_number with
      | some s => if s = "" then r.contact_number else s
      | none => r.contact_number,
    email := match email with
      | some s => if s = "" then r.email else s
      | none => r.email,
    date_of_birth := match date_of_birth with
      | some d => d.toDay
      | none => r.date_of_birth }

/-- `update_policyholder`: the existence check goes through
`self.get_policyholder` (fresh connection, committed store); each truthy
supplied field is validated on its own; a single `UPDATE` then rewrites the
supplied fields, where the `UNIQUE(email)` constraint can raise a
`psycopg2.Error`.  No re-validation of the whole record happens here. -/
def update_policyholder (now : Int) (db : DB) (pid : Nat)
    (name contact_number email : Option String)
    (date_of_birth : Option PyDate) : Except Err Unit × DB :=
  execute_transaction db (fun tx =>
    match get_policyholder_row db pid with
    | none => .error .validation
    | some _ =>
      match ((match contact_number with
             | some s => if s = "" then .ok () else validate_phone_number s
             | none => .ok ()) : Except Err Unit) with
      | .error e => .error e
      | .ok _ =>
        match ((match email with
               | some s => if s = "" then .ok () else validate_email s
               | none => .ok ()) : Except Err Unit) with
        | .error e => .error e
        | .ok _ =>
          match ((match date_of_birth with
                 | some d => validate_date_of_birth now d
                 | none => .ok ()) : Except Err Unit) with
          | .error e => .error e
          | .ok _ =>
            if strSet name || strSet contact_number || strSet email ||
                date_of_birth.isSome then
              if strSet email &&
                  tx.policyholders.any (fun r =>
                    r.id != pid && r.email == email.getD "") then
                .error .pg
              else
                .ok ((), { tx with policyholders :=
                  tx.policyholders.map (fun r =>
                    if r.id == pid then
                      updPHRow r name contact_number email date_of_birth
                    else r) })
            else .ok ((), tx))

/-- `delete_policyholder`: `DELETE` with `cur.rowcount == 0` raising a
`ValidationError`; the schema's `ON DELETE CASCADE` drops the owned policies
and, through the policies' own cascade, the claims on them. -/
def delete_policyholder (db : DB) (pid : Nat) : Except Err Unit × DB :=
  execute_transaction db (fun tx =>
    if tx.policyholders.any (fun r => r.id == pid) then
      .ok ((),
        { policyholders := tx.policyholders.filter (fun r => r.id != pid),
          policies := tx.policies.filter (fun r => r.policyholder_id != pid),
          claims := tx.claims.filter (fun c =>
            !((tx.policies.filter (fun r => r.policyholder_id == pid)).any
              (fun p => p.id == c.policy_id))) })
    else .error .validation)

/-- The row rewrite performed by `update_policy`'s single `UPDATE` statement:
`type` must be truthy, the dates truthy (datetimes always are), and the
amounts use `is not None`. -/
def updPolRow (r : PolRow) (t : Option String) (sd ed : Option PyDate)
    (cov prem : Option Rat) : PolRow :=
  { r with
    type := match t with
      | some s => if s = "" then r.type else s
      | none => r.type,
    start_date := match sd with
      | some d => d.toDay
      | none => r.start_date,
    end_date := match ed with
      | some d => d.toDay
      | none => r.end_date,
    coverage_amount := cov.getD r.coverage_amount,
    premium := prem.getD r.premium }

/-- `update_policy`: existence check and the post-write re-fetch both go
through `self.get_policy`, whose fresh connection reads the *committed*
store — so the re-validation runs on the pre-update record, not on the
transaction-local updated one. -/
def update_policy (db : DB) (pid : Nat) (t : Option String)
    (sd ed : Option PyDate) (cov prem : Option Rat) : Except Err Unit × DB :=
  execute_transaction db (fun tx =>
    match get_policy_row db pid with
    | none => .error .validation
    | some _ =>
      let tx1 :=
        if strSet t || sd.isSome || ed.isSome || cov.isSome || prem.isSome then
          { tx with policies := tx.policies.map (fun r =>
              if r.id == pid then updPolRow r t sd ed cov prem else r) }
        else tx
      match get_policy_row db pid with
      | none => .error .typeErr
      | some old =>
        match validate_policy tx1 old.toPolicy with
        | .error e => .error e
        | .ok _ => .ok ((), tx1))

/-- `delete_policy`: `DELETE` with the rowcount check; the schema's
`ON DELETE CASCADE` drops the dependent claims. -/
def delete_policy (db : DB) (pid : Nat) : Except Err Unit × DB :=
  execute_transaction db (fun tx =>
    if tx.policies.any (fun r => r.id == pid) then
      .ok ((),
        { tx with
          policies := tx.policies.filter (fun r => r.id != pid),
          claims := tx.claims.filter (fun c => c.policy_id != pid) })
    else .error .validation)

/-- The row rewrite performed by `update_claim`'s single `UPDATE` statement:
`description` must be truthy, `amount` uses `is not None`, and a supplied
status is stored as its string label. -/
def updClRow (r : ClRow) (desc : Option String) (amt : Option Rat)
    (st : Option ClaimStatus) : ClRow :=
  { r with
    description := match desc with
      | some s => if s = "" then r.description else s
      | none => r.description,
    amount := amt.getD r.amount,
    status := match st with
      | some s => s.value
      | none => r.status }

/-- `update_claim`: existence check and the post-write re-fetch both go
through `self.get_claim`, whose fresh connection reads the *committed*
store — the same re-validation flaw as `update_policy`. -/
def update_claim (db : DB) (cid : Nat) (desc : Option String)
    (amt : Option Rat) (st : Option ClaimStatus) : Except Err Unit × DB :=
  execute_transaction db (fun tx =>
    match get_claim_read db cid with
    | .error e => .error e
    | .ok none => .error .validation
    | .ok (some _) =>
      let tx1 :=
        if strSet desc || amt.isSome || st.isSome then
          { tx with claims := tx.claims.map (fun r =>
              if r.id == cid then updClRow r desc amt st else r) }
        else tx
      match get_claim_read db cid with
      | .error e => .error e
      | .ok none => .error .typeErr
      | .ok (some old) =>
        match validate_claim tx1 old with
        | .error e => .error e
        | .ok _ => .ok ((), tx1))

/-- `delete_claim`: `DELETE` with the rowcount check. -/
def delete_claim (db : DB) (cid : Nat) : Except Err Unit × DB :=
  execute_transaction db (fun tx =>
    if tx.claims.any (fun r => r.id == cid) then
      .ok ((), { tx with claims := tx.claims.filter (fun r => r.id != cid) })
    else .error .validation)

/-- A well-formed sample store: one adult policyholder, one valid policy,
one valid claim. -/
def samplePH : PHRow := ⟨1, "Ann", "123456789", "ann@mail.com", 0⟩

/-- Sample policy row: starts on day 7000 (its holder is then 7000 days
old, over the 18 × 365 = 6570-day threshold). -/
def samplePol : PolRow := ⟨1, 1, "auto", 7000, 7300, 100, 10⟩

/-- Sample claim row: incident on day 7010, submitted on day 7015. -/
def sampleCl : ClRow := ⟨1, 1, 7010, "dent", 50, "Submitted", 7015⟩

/-- The sample store. -/
def sampleDB : DB := ⟨[samplePH], [samplePol], [sampleCl]⟩

/-- A store whose one policyholder has a malformed stored email. -/
def badEmailDB : DB := ⟨[⟨1, "Bob", "123456789", "bademail", 0⟩], [], []⟩

/-- A store whose one stored claim exceeds its policy's coverage. -/
def overAmountDB : DB :=
  ⟨[samplePH], [samplePol], [⟨1, 1, 7010, "dent", 200, "Submitted", 7015⟩]⟩

/-- A failed unit of work leaves the committed store untouched: on success
the local store is committed, on `psycopg2.Error` the transaction is rolled
back, and on any other exception the connection closes uncommitted. -/
theorem execute_transaction_error {α : Type} (db : DB)
    (f : DB → Except Err (α × DB)) (e : Err)
    (h : (execute_transaction db f).1 = .error e) :
    (execute_transaction db f).2 = db := by
  unfold execute_transaction at h ⊢
  cases hf : f db with
  | ok p => rw [hf] at h; exact absurd h (by simp)
  | error err => cases err <;> simp [hf]

/-- Claim C1 (code bug): `update_policy`'s re-validating read
(`updated_policy = self.get_policy(policy_id)`) opens a fresh connection and
therefore sees the pre-update committed record, not the transaction-local
updated one.  Setting `coverage_amount = -5` on a valid policy consequently
commits: the call succeeds, the committed row carries the negative coverage,
and that committed row now fails the policy validation the update was meant
to re-run. -/
theorem update_policy_commits_invalid_record :
    (update_policy sampleDB 1 none none none (some (-5)) none).1 = .ok () ∧
    findPol (update_policy sampleDB 1 none none none (some (-5)) none).2.policies 1 =
      some ⟨1, 1, "auto", 7000, 7300, -5, 10⟩ ∧
    validate_policy (update_policy sampleDB 1 none none none (some (-5)) none).2
      (PolRow.toPolicy ⟨1, 1, "auto", 7000, 7300, -5, 10⟩) =
      .error .validation := by
  decide

/-- Claim C2: for every update operation (`update_policyholder`,
`update_policy`, `update_claim`), if the call raises any error then the
committed store is exactly what it was before the call — no partially
updated state is ever persisted. -/
theorem update_failure_leaves_store_unchanged :
    (∀ (now : Int) (db : DB) (pid : Nat) (n c em : Option String)
        (d : Option PyDate) (e : Err),
      (update_policyholder now db pid n c em d).1 = .error e →
      (update_policyholder now db pid n c em d).2 = db) ∧
    (∀ (db : DB) (pid : Nat) (t : Option String) (sd ed : Option PyDate)
        (cov prem : Option Rat) (e : Err),
      (update_policy db pid t sd ed cov prem).1 = .error e →
      (update_policy db pid t sd ed cov prem).2 = db) ∧
    (∀ (db : DB) (cid : Nat) (ds : Option String) (amt : Option Rat)
        (st : Option ClaimStatus) (e : Err),
      (update_claim db cid ds amt st).1 = .error e →
      (update_claim db cid ds amt st).2 = db) := by
  refine ⟨?_, ?_, ?_⟩
  · intro now db pid n c em d e h
    exact execute_transaction_error db _ e h
  · intro db pid t sd ed cov prem e h
    exact execute_transaction_error db _ e h
  · intro db cid ds amt st e h
    exact execute_transaction_error db _ e h

/-- Witness for C2: updating a nonexistent policyholder fails with a
`ValidationError` and leaves the sample store unchanged. -/
theorem update_failure_leaves_store_unchanged_witness :
    (update_policyholder 0 sampleDB 2 none none none none).1 =
      .error .validation ∧
    (update_policyholder 0 sampleDB 2 none none none none).2 = sampleDB :=
  ⟨by decide,
    update_failure_leaves_store_unchanged.1 0 sampleDB 2 none none none none
      .validation (by decide)⟩

theorem le_fdiv_secPerDay (k x : Int) :
    k ≤ Int.fdiv x secPerDay ↔ k * secPerDay ≤ x := by
  rw [secPerDay, Int.fdiv_eq_ediv x (by norm_num)]
  exact Int.le_ediv_iff_mul_le (by norm_num)

theorem any_id_of_findPol {l : List PolRow} {i : Nat} {r : PolRow}
    (h : findPol l i = some r) : l.any (fun q => q.id == i) = true := by
  unfold findPol at h
  have hp := List.find?_some h
  exact List.any_eq_true.mpr ⟨r, List.mem_of_find?_eq_some h, hp⟩

theorem any_id_of_findPH {l : List PHRow} {i : Nat} {r : PHRow}
    (h : findPH l i = some r) : l.any (fun q => q.id == i) = true := by
  unfold findPH at h
  have hp := List.find?_some h
  exact List.any_eq_true.mpr ⟨r, List.mem_of_find?_eq_some h, hp⟩

theorem validate_claim_ok_iff (db : DB) (c : Claim) :
    validate_claim db c = .ok () ↔
      ∃ pol, findPol db.policies c.policy_id = some pol ∧
        pol.start_date ≤ c.date_of_incident.toDay ∧
        c.date_of_incident.toDay ≤ pol.end_date ∧
        0 < c.amount ∧ c.amount ≤ pol.coverage_amount ∧
        c.date_of_incident.toDay ≤ c.date_submitted.toDay ∧
        c.date_submitted.toDay - c.date_of_incident.toDay ≤ 30 := by
  unfold validate_claim
  cases h : findPol db.policies c.policy_id with
  | none => simp [h]
  | some pol =>
    simp only [h, Option.some.injEq, exists_eq_left']
    split_ifs with h1 h2 h3 h4
    · refine iff_of_false (by simp) ?_
      rintro ⟨p1, p2, _⟩
      rcases h1 with h | h
      · exact absurd p1 (not_le.mpr h)
      · exact absurd p2 (not_le.mpr h)
    · refine iff_of_false (by simp) ?_
      rintro ⟨_, _, p3, p4, _⟩
      rcases h2 with h | h
      · exact absurd p3 (not_lt.mpr h)
      · exact absurd p4 (not_le.mpr h)
    · refine iff_of_false (by simp) ?_
      rintro ⟨_, _, _, _, p5, _⟩
      exact absurd p5 (not_le.mpr h3)
    · refine iff_of_false (by simp) ?_
      rintro ⟨_, _, _, _, _, p6⟩
      exact absurd p6 (not_le.mpr h4)
    · push_neg at h1 h2
      exact iff_of_true rfl ⟨h1.1, h1.2, h2.1, h2.2, not_lt.mp h3, not_lt.mp h4⟩

theorem validate_policy_ok_iff (db : DB) (p : Policy) :
    validate_policy db p = .ok () ↔
      ∃ ph, findPH db.policyholders p.policyholder_id = some ph ∧
        pyGe p.start_date p.end_date = .ok false ∧
        0 < p.coverage_amount ∧ 0 < p.premium ∧
        18 * 365 ≤ p.start_date.toDay - ph.date_of_birth := by
  unfold validate_policy
  cases h : findPH db.policyholders p.policyholder_id with
  | none => simp [h]
  | some ph =>
    simp only [h, Option.some.injEq, exists_eq_left']
    cases hge : pyGe p.start_date p.end_date with
    | error u =>
      refine iff_of_false (by simp) ?_
      rintro ⟨hg, _⟩
      exact absurd hg (by simp)
    | ok b =>
      cases b with
      | true =>
        refine iff_of_false (by simp) ?_
        rintro ⟨hg, _⟩
        exact absurd hg (by simp)
      | false =>
        simp only [hge, true_and]
        split_ifs with h1 h2 h3
        · refine iff_of_false (by simp) ?_
          rintro ⟨p1, _⟩
          exact absurd p1 (not_lt.mpr h1)
        · refine iff_of_false (by simp) ?_
          rintro ⟨_, p2, _⟩
          exact absurd p2 (not_lt.mpr h2)
        · refine iff_of_false (by simp) ?_
          rintro ⟨_, _, p3⟩
          exact absurd p3 (not_le.mpr h3)
        · exact iff_of_true rfl ⟨not_le.mp h1, not_le.mp h2, not_lt.mp h3⟩

theorem validate_policyholder_ok_iff (now : Int) (p : Policyholder) (t : Int)
    (hdob : p.date_of_birth = .datetime t) :
    validate_policyholder now p = .ok () ↔
      emailOk p.email = true ∧ phoneOk p.contact_number = true ∧
      18 * 365 ≤ Int.fdiv (now - t) secPerDay := by
  have hfd : 18 * 365 ≤ Int.fdiv (now - t) secPerDay → ¬ now < t := by
    intro hage
    have h6 := (le_fdiv_secPerDay (18 * 365) (now - t)).mp hage
    rw [secPerDay] at h6
    omega
  unfold validate_policyholder validate_email validate_phone_number
      validate_date_of_birth
  rw [hdob]
  cases he : emailOk p.email with
  | false => simp [he]
  | true =>
    cases hp : phoneOk p.contact_number with
    | false => simp [hp]
    | true =>
      simp only [he, hp, if_true, true_and]
      split_ifs with h1 h2
      · exact iff_of_false (by simp) (fun hage => hfd hage h1)
      · exact iff_of_false (by simp) (not_le.mpr h2)
      · exact iff_of_true rfl (not_lt.mp h2)

/-- Claim C3: `create_claim(c)` succeeds exactly when the referenced policy
exists, the incident date (normalized to a day) lies in the policy's
coverage window, the amount is positive and at most the coverage, the
submission day is not before the incident day, and at most 30 days later;
on failure the error propagates and nothing is inserted.  The freshness
hypothesis keeps the `PRIMARY KEY` constraint out of the way. -/
theorem create_claim_iff (db : DB) (c : Claim)
    (hfresh : db.claims.any (fun q => q.id == c.id) = false) :
    (create_claim db c).1 = .ok () ↔
      ∃ pol, findPol db.policies c.policy_id = some pol ∧
        pol.start_date ≤ c.date_of_incident.toDay ∧
        c.date_of_incident.toDay ≤ pol.end_date ∧
        0 < c.amount ∧ c.amount ≤ pol.coverage_amount ∧
        c.date_of_incident.toDay ≤ c.date_submitted.toDay ∧
        c.date_submitted.toDay - c.date_of_incident.toDay ≤ 30 := by
  have hval := validate_claim_ok_iff db c
  rw [← hval]
  cases hv : validate_claim db c with
  | error e =>
    refine iff_of_false ?_ (by simp [hv])
    unfold create_claim execute_transaction
    simp only [hv]
    cases e <;> simp
  | ok u =>
    cases u
    refine iff_of_true ?_ rfl
    obtain ⟨pol, hpol, _⟩ := hval.mp hv
    have hany := any_id_of_findPol hpol
    unfold create_claim execute_transaction insertCl
    simp [hv, hfresh, hany]

/-- Claim C4: `create_policy(pol)` (dates arriving as datetimes, as the API
builds them) succeeds exactly when the referenced policyholder exists, the
raw start datetime is strictly before the raw end datetime, coverage and
premium are positive, and the holder is at least 18 × 365 days old on the
policy's start day; on failure nothing is inserted. -/
theorem create_policy_iff (db : DB) (i phid : Nat) (ty : String) (s e : Int)
    (cov prem : Rat)
    (hfresh : db.policies.any (fun q => q.id == i) = false) :
    (create_policy db ⟨i, phid, ty, .datetime s, .datetime e, cov, prem⟩).1 =
        .ok () ↔
      ∃ ph, findPH db.policyholders phid = some ph ∧ s < e ∧
        0 < cov ∧ 0 < prem ∧
        18 * 365 ≤ Int.fdiv s secPerDay - ph.date_of_birth := by
  have hval := validate_policy_ok_iff db
    ⟨i, phid, ty, .datetime s, .datetime e, cov, prem⟩
  have hval2 : validate_policy db
      ⟨i, phid, ty, .datetime s, .datetime e, cov, prem⟩ = .ok () ↔
      ∃ ph, findPH db.policyholders phid = some ph ∧ s < e ∧
        0 < cov ∧ 0 < prem ∧
        18 * 365 ≤ Int.fdiv s secPerDay - ph.date_of_birth := by
    rw [hval]
    constructor
    · rintro ⟨ph, hph, hge, h3, h4, h5⟩
      refine ⟨ph, hph, ?_, h3, h4, ?_⟩
      · simpa [pyGe] using hge
      · simpa [PyDate.toDay] using h5
    · rintro ⟨ph, hph, hlt, h3, h4, h5⟩
      refine ⟨ph, hph, ?_, h3, h4, ?_⟩
      · simp [pyGe, not_le.mpr hlt]
      · simpa [PyDate.toDay] using h5
  rw [← hval2]
  cases hv : validate_policy db
      ⟨i, phid, ty, .datetime s, .datetime e, cov, prem⟩ with
  | error er =>
    refine iff_of_false ?_ (by simp [hv])
    unfold create_policy execute_transaction
    simp only [hv]
    cases er <;> simp
  | ok u =>
    cases u
    refine iff_of_true ?_ rfl
    obtain ⟨ph, hph, _⟩ := hval.mp hv
    have hany := any_id_of_findPH hph
    unfold create_policy execute_transaction insertPol
    simp [hv, hfresh, hany]

/-- Claim C5: `create_policyholder(p)` succeeds exactly when the email
matches the email regex, the contact number matches the phone regex, and
`(now - dob).days` reaches the 18 × 365-day threshold (which subsumes the
dob-in-the-future check); on failure nothing is inserted. -/
theorem create_policyholder_iff (now : Int) (db : DB) (p : Policyholder)
    (t : Int) (hdob : p.date_of_birth = .datetime t)
    (hfresh : db.policyholders.any
      (fun q => q.id == p.id || q.email == p.email) = false) :
    (create_policyholder now db p).1 = .ok () ↔
      emailOk p.email = true ∧ phoneOk p.contact_number = true ∧
      18 * 365 ≤ Int.fdiv (now - t) secPerDay := by
  have hval := validate_policyholder_ok_iff now p t hdob
  rw [← hval]
  cases hv : validate_policyholder now p with
  | error e =>
    refine iff_of_false ?_ (by simp [hv])
    unfold create_policyholder execute_transaction
    simp only [hv]
    cases e <;> simp
  | ok u =>
    cases u
    refine iff_of_true ?_ rfl
    unfold create_policyholder execute_transaction insertPH
    simp [hv, hfresh]

/-- Witness for C3: a fresh claim against the sample store. -/
theorem create_claim_iff_witness :
    sampleDB.claims.any (fun q => q.id == 2) = false ∧
    ((create_claim sampleDB
        ⟨2, 1, .date 7010, "x", 50, .submitted, .date 7015⟩).1 = .ok () ↔
      ∃ pol, findPol sampleDB.policies 1 = some pol ∧
        pol.start_date ≤ 7010 ∧ (7010 : Int) ≤ pol.end_date ∧
        0 < (50 : Rat) ∧ (50 : Rat) ≤ pol.coverage_amount ∧
        (7010 : Int) ≤ 7015 ∧ (7015 : Int) - 7010 ≤ 30) :=
  ⟨by decide, create_claim_iff sampleDB
    ⟨2, 1, .date 7010, "x", 50, .submitted, .date 7015⟩ (by decide)⟩

/-- Witness for C4: a fresh policy against the sample store. -/
theorem create_policy_iff_witness :
    sampleDB.policies.any (fun q => q.id == 2) = false ∧
    ((create_policy sampleDB ⟨2, 1, "home", .datetime (7100 * 86400),
        .datetime (7200 * 86400), 50, 5⟩).1 = .ok () ↔
      ∃ ph, findPH sampleDB.policyholders 1 = some ph ∧
        (7100 * 86400 : Int) < 7200 * 86400 ∧
        0 < (50 : Rat) ∧ 0 < (5 : Rat) ∧
        18 * 365 ≤ Int.fdiv (7100 * 86400) secPerDay - ph.date_of_birth) :=
  ⟨by decide, create_policy_iff sampleDB 2 1 "home" (7100 * 86400)
    (7200 * 86400) 50 5 (by decide)⟩

/-- Witness for C5: a fresh policyholder against the sample store. -/
theorem create_policyholder_iff_witness :
    (⟨2, "Cal", "123456789", "cal@mail.com",
        .datetime 0⟩ : Policyholder).date_of_birth = .datetime 0 ∧
    sampleDB.policyholders.any
      (fun q => q.id == 2 || q.email == "cal@mail.com") = false ∧
    ((create_policyholder (6570 * 86400) sampleDB
        ⟨2, "Cal", "123456789", "cal@mail.com", .datetime 0⟩).1 = .ok () ↔
      emailOk "cal@mail.com" = true ∧ phoneOk "123456789" = true ∧
      18 * 365 ≤ Int.fdiv (6570 * 86400 - 0) secPerDay) :=
  ⟨rfl, by decide, create_policyholder_iff (6570 * 86400) sampleDB
    ⟨2, "Cal", "123456789", "cal@mail.com", .datetime 0⟩ 0 rfl (by decide)⟩

/-- Claim C6 (counterexample): not every validation check normalizes to
date-only before comparing.  First, `_validate_date_of_birth` compares the
raw datetimes: two policyholder validations whose inputs differ only in the
time of day of the date of birth (same day, 00:00 versus 01:00) give
different outcomes at the 18-year boundary — accept versus
`BusinessRuleViolation`.  Second, `_validate_policy` compares the raw
datetimes in `start_date >= end_date` before its `isinstance`
normalizations: two policy validations whose start/end dates fall on the
same day and differ only in their times of day (start 01:00 / end 02:00
versus start 02:00 / end 01:00) give accept versus `ValidationError`. -/
theorem time_of_day_changes_validation_outcome :
    validate_policyholder (6570 * 86400)
      ⟨1, "A", "123456789", "a@b.cd", .datetime 0⟩ = .ok () ∧
    validate_policyholder (6570 * 86400)
      ⟨1, "A", "123456789", "a@b.cd", .datetime 3600⟩ = .error .businessRule ∧
    PyDate.toDay (.datetime 0) = PyDate.toDay (.datetime 3600) ∧
    validate_policy sampleDB ⟨2, 1, "x", .datetime (7000 * 86400 + 3600),
      .datetime (7000 * 86400 + 7200), 5, 5⟩ = .ok () ∧
    validate_policy sampleDB ⟨2, 1, "x", .datetime (7000 * 86400 + 7200),
      .datetime (7000 * 86400 + 3600), 5, 5⟩ = .error .validation ∧
    PyDate.toDay (.datetime (7000 * 86400 + 3600)) =
      PyDate.toDay (.datetime (7000 * 86400 + 7200)) := by
  decide

/-- Claim C6 (amended): claim validation does normalize every date to day
precision before comparing, so two claim-validation runs whose inputs agree
up to time of day (same days, same amount, same policy) have identical
outcomes; the raw-datetime comparisons elsewhere — the policyholder
date-of-birth check and the policy `start_date >= end_date` check — are the
exceptions, and time of day can change their decisions. -/
theorem validate_claim_time_insensitive (db : DB) (c c' : Claim)
    (hp : c.policy_id = c'.policy_id) (ha : c.amount = c'.amount)
    (hi : c.date_of_incident.toDay = c'.date_of_incident.toDay)
    (hs : c.date_submitted.toDay = c'.date_submitted.toDay) :
    validate_claim db c = validate_claim db c' := by
  unfold validate_claim
  rw [hp, ha, hi, hs]

/-- Witness for the amended C6: a datetime-carrying claim and its date-only
counterpart validate identically. -/
theorem validate_claim_time_insensitive_witness :
    (1 : Nat) = 1 ∧ (50 : Rat) = 50 ∧
    PyDate.toDay (.datetime 3600) = PyDate.toDay (.date 0) ∧
    PyDate.toDay (.datetime 7200) = PyDate.toDay (.date 0) ∧
    validate_claim sampleDB
      ⟨3, 1, .datetime 3600, "x", 50, .submitted, .datetime 7200⟩ =
    validate_claim sampleDB ⟨3, 1, .date 0, "x", 50, .submitted, .date 0⟩ :=
  ⟨rfl, rfl, by decide, by decide,
    validate_claim_time_insensitive sampleDB
      ⟨3, 1, .datetime 3600, "x", 50, .submitted, .datetime 7200⟩
      ⟨3, 1, .date 0, "x", 50, .submitted, .date 0⟩
      rfl rfl (by decide) (by decide)⟩

/-- Claim C7 (counterexample): a zero-field `update_policyholder` runs no
validation of the stored record at all (the method has no final
re-validation, unlike `update_policy` / `update_claim`): on a store whose
only policyholder carries a malformed stored email, the zero-field update
reports success even though the stored record violates the email invariant. -/
theorem zero_field_update_policyholder_skips_validation :
    (update_policyholder 0 badEmailDB 1 none none none none).1 = .ok () ∧
    emailOk "bademail" = false ∧
    validate_email "bademail" = .error .validation := by
  decide

/-- Claim C7 (amended): a zero-field update writes nothing and leaves the
store unchanged; for `update_policy` and `update_claim` it still re-runs the
full validation of the stored record (succeeding exactly when the stored
record passes), while `update_policyholder` only checks existence and always
succeeds on an existing record. -/
theorem zero_field_update_revalidates :
    (∀ (now : Int) (db : DB) (pid : Nat) (r : PHRow),
      get_policyholder_row db pid = some r →
      (update_policyholder now db pid none none none none).1 = .ok () ∧
      (update_policyholder now db pid none none none none).2 = db) ∧
    (∀ (db : DB) (pid : Nat) (r : PolRow),
      get_policy_row db pid = some r →
      ((update_policy db pid none none none none none).1 = .ok () ↔
        validate_policy db r.toPolicy = .ok ()) ∧
      (update_policy db pid none none none none none).2 = db) ∧
    (∀ (db : DB) (cid : Nat) (r : ClRow) (c : Claim),
      findCl db.claims cid = some r → r.toClaim = .ok c →
      ((update_claim db cid none none none).1 = .ok () ↔
        validate_claim db c = .ok ()) ∧
      (update_claim db cid none none none).2 = db) := by
  refine ⟨?_, ?_, ?_⟩
  · intro now db pid r h
    constructor <;>
      (unfold update_policyholder execute_transaction; simp [h, strSet])
  · intro db pid r h
    cases hv : validate_policy db r.toPolicy with
    | error e =>
      constructor
      · refine iff_of_false ?_ (by simp)
        unfold update_policy execute_transaction
        cases e <;> simp [h, hv, strSet]
      · unfold update_policy execute_transaction
        cases e <;> simp [h, hv, strSet]
    | ok u =>
      cases u
      constructor
      · refine iff_of_true ?_ rfl
        unfold update_policy execute_transaction
        simp [h, hv, strSet]
      · unfold update_policy execute_transaction
        simp [h, hv, strSet]
  · intro db cid r c h htc
    have hread : get_claim_read db cid = .ok (some c) := by
      unfold get_claim_read
      simp [h, htc]
    cases hv : validate_claim db c with
    | error e =>
      constructor
      · refine iff_of_false ?_ (by simp)
        unfold update_claim execute_transaction
        cases e <;> simp [hread, hv, strSet]
      · unfold update_claim execute_transaction
        cases e <;> simp [hread, hv, strSet]
    | ok u =>
      cases u
      constructor
      · refine iff_of_true ?_ rfl
        unfold update_claim execute_transaction
        simp [hread, hv, strSet]
      · unfold update_claim execute_transaction
        simp [hread, hv, strSet]

/-- Witness for the amended C7 on the sample store. -/
theorem zero_field_update_revalidates_witness :
    get_policyholder_row sampleDB 1 = some samplePH ∧
    (update_policyholder 0 sampleDB 1 none none none none).1 = .ok () ∧
    (update_policyholder 0 sampleDB 1 none none none none).2 = sampleDB ∧
    get_policy_row sampleDB 1 = some samplePol ∧
    ((update_policy sampleDB 1 none none none none none).1 = .ok () ↔
      validate_policy sampleDB samplePol.toPolicy = .ok ()) ∧
    findCl sampleDB.claims 1 = some sampleCl ∧
    sampleCl.toClaim = .ok ⟨1, 1, .date 7010, "dent", 50, .submitted, .date 7015⟩ ∧
    ((update_claim sampleDB 1 none none none).1 = .ok () ↔
      validate_claim sampleDB
        ⟨1, 1, .date 7010, "dent", 50, .submitted, .date 7015⟩ = .ok ()) :=
  ⟨by decide,
   (zero_field_update_revalidates.1 0 sampleDB 1 samplePH (by decide)).1,
   (zero_field_update_revalidates.1 0 sampleDB 1 samplePH (by decide)).2,
   by decide,
   (zero_field_update_revalidates.2.1 sampleDB 1 samplePol (by decide)).1,
   by decide, by decide,
   (zero_field_update_revalidates.2.2 sampleDB 1 sampleCl
     ⟨1, 1, .date 7010, "dent", 50, .submitted, .date 7015⟩
     (by decide) (by decide)).1⟩

/-- Claim C10 (counterexample): supplying the empty string is skipped like an
omitted field, but the call does not always report success — on a store whose
stored claim exceeds its policy's coverage, `update_claim(id, description="")`
fails the re-validation of the stored record. -/
theorem empty_string_update_can_fail :
    (findCl overAmountDB.claims 1).isSome = true ∧
    (update_claim overAmountDB 1 (some "") none none).1 =
      .error .validation := by
  decide

/-- Claim C10 (amended): for every update operation, an empty-string textual
field (name, contact number, email, type, description) behaves exactly like
an omitted field — the whole call, result and final store, is equal to the
call with the field omitted — and a call whose only supplied fields are
empty strings leaves the store unchanged, so no stored textual field can be
cleared to empty through an update. -/
theorem empty_string_fields_ignored :
    (∀ (now : Int) (db : DB) (pid : Nat) (c e : Option String)
        (d : Option PyDate),
      update_policyholder now db pid (some "") c e d =
      update_policyholder now db pid none c e d) ∧
    (∀ (now : Int) (db : DB) (pid : Nat) (n e : Option String)
        (d : Option PyDate),
      update_policyholder now db pid n (some "") e d =
      update_policyholder now db pid n none e d) ∧
    (∀ (now : Int) (db : DB) (pid : Nat) (n c : Option String)
        (d : Option PyDate),
      update_policyholder now db pid n c (some "") d =
      update_policyholder now db pid n c none d) ∧
    (∀ (db : DB) (pid : Nat) (sd ed : Option PyDate) (cov prem : Option Rat),
      update_policy db pid (some "") sd ed cov prem =
      update_policy db pid none sd ed cov prem) ∧
    (∀ (db : DB) (cid : Nat) (amt : Option Rat) (st : Option ClaimStatus),
      update_claim db cid (some "") amt st =
      update_claim db cid none amt st) ∧
    (∀ (now : Int) (db : DB) (pid : Nat),
      (update_policyholder now db pid (some "") (some "") (some "") none).2 =
        db) ∧
    (∀ (db : DB) (pid : Nat),
      (update_policy db pid (some "") none none none none).2 = db) ∧
    (∀ (db : DB) (cid : Nat),
      (update_claim db cid (some "") none none).2 = db) := by
  refine ⟨?_, ?_, ?_, ?_, ?_, ?_, ?_, ?_⟩
  · intro now db pid c e d
    rfl
  · intro now db pid n e d
    rfl
  · intro now db pid n c d
    rfl
  · intro db pid sd ed cov prem
    rfl
  · intro db cid amt st
    rfl
  · intro now db pid
    unfold update_policyholder execute_transaction
    cases h : get_policyholder_row db pid with
    | none => simp [h]
    | some r => simp [h, strSet]
  · intro db pid
    unfold update_policy execute_transaction
    cases h : get_policy_row db pid with
    | none => simp [h]
    | some r =>
      cases hv : validate_policy db r.toPolicy with
      | error e => cases e <;> simp [h, hv, strSet]
      | ok u => cases u; simp [h, hv, strSet]
  · intro db cid
    unfold update_claim execute_transaction
    cases hr : get_claim_read db cid with
    | error e => cases e <;> simp [hr]
    | ok o =>
      cases o with
      | none => simp [hr]
      | some c =>
        cases hv : validate_claim db c with
        | error e => cases e <;> simp [hr, hv, strSet]
        | ok u => cases u; simp [hr, hv, strSet]

/-- Claim C8 (counterexample): a claim whose amount exceeds the policy's
coverage (all other rules satisfied) is rejected with the field-level
`ValidationError` — the code groups it with `amount <= 0` — not with the
`BusinessRuleViolation` the claim's taxonomy assigns to it. -/
theorem over_coverage_claim_is_validation_error :
    findPol sampleDB.policies 1 = some samplePol ∧
    samplePol.coverage_amount < 200 ∧
    (create_claim sampleDB
      ⟨2, 1, .date 7010, "x", 200, .submitted, .date 7015⟩).1 =
      .error .validation ∧
    Err.validation ≠ Err.businessRule := by
  decide

/-- Claim C8 (amended): malformed email/phone, out-of-range values
(future date of birth, nonpositive or over-coverage claim amount), missing
references, and not-found on update/delete raise `ValidationError`; the
underage policyholder and the late claim submission raise
`BusinessRuleViolation`.  (Only the over-coverage case differs from the
original claim: it is a `ValidationError`.) -/
theorem error_kind_taxonomy :
    (∀ s : String, emailOk s = false →
      validate_email s = .error .validation) ∧
    (∀ s : String, phoneOk s = false →
      validate_phone_number s = .error .validation) ∧
    (∀ (db : DB) (p : Policy),
      findPH db.policyholders p.policyholder_id = none →
      validate_policy db p = .error .validation) ∧
    (∀ (db : DB) (c : Claim), findPol db.policies c.policy_id = none →
      validate_claim db c = .error .validation) ∧
    (∀ (now : Int) (db : DB) (pid : Nat) (n c e : Option String)
        (d : Option PyDate), get_policyholder_row db pid = none →
      (update_policyholder now db pid n c e d).1 = .error .validation) ∧
    (∀ (db : DB) (pid : Nat),
      db.policies.any (fun r => r.id == pid) = false →
      (delete_policy db pid).1 = .error .validation) ∧
    (∀ now t : Int, now < t →
      validate_date_of_birth now (.datetime t) = .error .validation) ∧
    (∀ now t : Int, ¬ now < t →
      Int.fdiv (now - t) secPerDay < 18 * 365 →
      validate_date_of_birth now (.datetime t) = .error .businessRule) ∧
    (∀ (db : DB) (p : Policy) (ph : PHRow),
      findPH db.policyholders p.policyholder_id = some ph →
      pyGe p.start_date p.end_date = .ok false →
      0 < p.coverage_amount → 0 < p.premium →
      p.start_date.toDay - ph.date_of_birth < 18 * 365 →
      validate_policy db p = .error .businessRule) ∧
    (∀ (db : DB) (c : Claim) (pol : PolRow),
      findPol db.policies c.policy_id = some pol →
      pol.start_date ≤ c.date_of_incident.toDay →
      c.date_of_incident.toDay ≤ pol.end_date →
      (c.amount ≤ 0 ∨ pol.coverage_amount < c.amount) →
      validate_claim db c = .error .validation) ∧
    (∀ (db : DB) (c : Claim) (pol : PolRow),
      findPol db.policies c.policy_id = some pol →
      pol.start_date ≤ c.date_of_incident.toDay →
      c.date_of_incident.toDay ≤ pol.end_date →
      0 < c.amount → c.amount ≤ pol.coverage_amount →
      c.date_of_incident.toDay ≤ c.date_submitted.toDay →
      30 < c.date_submitted.toDay - c.date_of_incident.toDay →
      validate_claim db c = .error .businessRule) := by
  refine ⟨?_, ?_, ?_, ?_, ?_, ?_, ?_, ?_, ?_, ?_, ?_⟩
  · intro s hs
    unfold validate_email
    rw [if_neg (by simp [hs])]
  · intro s hs
    unfold validate_phone_number
    rw [if_neg (by simp [hs])]
  · intro db p hnone
    unfold validate_policy
    simp only [hnone]
  · intro db c hnone
    unfold validate_claim
    simp only [hnone]
  · intro now db pid n c e d hnone
    unfold update_policyholder execute_transaction
    simp [hnone]
  · intro db pid hnone
    unfold delete_policy execute_transaction
    simp [hnone]
  · intro now t h
    simp [validate_date_of_birth, h]
  · intro now t h1 h2
    have h2a : Int.fdiv (now - t) secPerDay < 6570 := by omega
    simp [validate_date_of_birth, h1, h2a]
  · intro db p ph hph hge hcov hprem hage
    unfold validate_policy
    simp only [hph, hge]
    rw [if_neg (not_le.mpr hcov), if_neg (not_le.mpr hprem), if_pos hage]
  · intro db c pol hpol h1 h2 h3
    unfold validate_claim
    simp only [hpol]
    rw [if_neg (by rw [not_or]; exact ⟨not_lt.mpr h1, not_lt.mpr h2⟩),
      if_pos h3]
  · intro db c pol hpol h1 h2 h3 h4 h5 h6
    unfold validate_claim
    simp only [hpol]
    rw [if_neg (by rw [not_or]; exact ⟨not_lt.mpr h1, not_lt.mpr h2⟩),
      if_neg (by rw [not_or]; exact ⟨not_le.mpr h3, not_lt.mpr h4⟩),
      if_neg (not_lt.mpr h5), if_pos h6]

/-- Witness for the amended C8: one concrete rejection per taxonomy case. -/
theorem error_kind_taxonomy_witness :
    validate_email "nope" = .error .validation ∧
    validate_phone_number "12" = .error .validation ∧
    validate_policy ⟨[], [], []⟩ samplePol.toPolicy = .error .validation ∧
    validate_claim ⟨[], [], []⟩
      ⟨1, 1, .date 0, "x", 1, .submitted, .date 0⟩ = .error .validation ∧
    (update_policyholder 0 ⟨[], [], []⟩ 9 none none none none).1 =
      .error .validation ∧
    (delete_policy ⟨[], [], []⟩ 9).1 = .error .validation ∧
    validate_date_of_birth 0 (.datetime 1) = .error .validation ∧
    validate_date_of_birth 0 (.datetime 0) = .error .businessRule ∧
    validate_policy sampleDB ⟨2, 1, "x", .date 100, .date 200, 5, 5⟩ =
      .error .businessRule ∧
    validate_claim sampleDB
      ⟨2, 1, .date 7010, "x", 200, .submitted, .date 7015⟩ =
      .error .validation ∧
    validate_claim sampleDB
      ⟨2, 1, .date 7010, "x", 50, .submitted, .date 7050⟩ =
      .error .businessRule :=
  ⟨error_kind_taxonomy.1 "nope" (by decide),
   error_kind_taxonomy.2.1 "12" (by decide),
   error_kind_taxonomy.2.2.1 ⟨[], [], []⟩ samplePol.toPolicy (by decide),
   error_kind_taxonomy.2.2.2.1 ⟨[], [], []⟩
     ⟨1, 1, .date 0, "x", 1, .submitted, .date 0⟩ (by decide),
   error_kind_taxonomy.2.2.2.2.1 0 ⟨[], [], []⟩ 9 none none none none
     (by decide),
   error_kind_taxonomy.2.2.2.2.2.1 ⟨[], [], []⟩ 9 (by decide),
   error_kind_taxonomy.2.2.2.2.2.2.1 0 1 (by decide),
   error_kind_taxonomy.2.2.2.2.2.2.2.1 0 0 (by decide) (by decide),
   error_kind_taxonomy.2.2.2.2.2.2.2.2.1 sampleDB
     ⟨2, 1, "x", .date 100, .date 200, 5, 5⟩ samplePH (by decide) (by decide)
     (by decide) (by decide) (by decide),
   error_kind_taxonomy.2.2.2.2.2.2.2.2.2.1 sampleDB
     ⟨2, 1, .date 7010, "x", 200, .submitted, .date 7015⟩ samplePol
     (by decide) (by decide) (by decide) (Or.inr (by decide)),
   error_kind_taxonomy.2.2.2.2.2.2.2.2.2.2 sampleDB
     ⟨2, 1, .date 7010, "x", 50, .submitted, .date 7050⟩ samplePol
     (by decide) (by decide) (by decide) (by decide) (by decide) (by decide)
     (by decide)⟩

/-- Claim C9: deleting a stored policyholder succeeds and removes the
holder, every policy referencing it, and (transitively, via the policies'
cascade) every claim on one of those policies; deleting a stored policy
succeeds and removes its dependent claims, after which a removed claim's id
reads back as not-found (claim ids being unique, as the `PRIMARY KEY`
guarantees). -/
theorem cascade_delete :
    (∀ (db : DB) (hid : Nat),
      db.policyholders.any (fun r => r.id == hid) = true →
      (delete_policyholder db hid).1 = .ok () ∧
      (delete_policyholder db hid).2.policyholders.all
        (fun r => r.id != hid) = true ∧
      (delete_policyholder db hid).2.policies.all
        (fun r => r.policyholder_id != hid) = true ∧
      (∀ c ∈ (delete_policyholder db hid).2.claims,
        ∀ p ∈ db.policies, p.policyholder_id = hid → c.policy_id ≠ p.id)) ∧
    (∀ (db : DB) (pid : Nat),
      db.policies.any (fun r => r.id == pid) = true →
      (delete_policy db pid).1 = .ok () ∧
      (delete_policy db pid).2.claims.all
        (fun c => c.policy_id != pid) = true ∧
      (∀ (cid : Nat) (c : ClRow), (db.claims.map ClRow.id).Nodup →
        findCl db.claims cid = some c → c.policy_id = pid →
        (get_claim (delete_policy db pid).2 cid).1 = .ok none)) := by
  constructor
  · intro db hid h
    have hsnd : (delete_policyholder db hid).2 =
        { policyholders := db.policyholders.filter (fun r => r.id != hid),
          policies := db.policies.filter (fun r => r.policyholder_id != hid),
          claims := db.claims.filter (fun c =>
            !((db.policies.filter (fun r => r.policyholder_id == hid)).any
              (fun p => p.id == c.policy_id))) } := by
      unfold delete_policyholder execute_transaction
      simp [h]
    refine ⟨?_, ?_, ?_, ?_⟩
    · unfold delete_policyholder execute_transaction
      simp [h]
    · rw [hsnd, List.all_eq_true]
      intro r hr
      exact (List.mem_filter.mp hr).2
    · rw [hsnd, List.all_eq_true]
      intro r hr
      exact (List.mem_filter.mp hr).2
    · rw [hsnd]
      intro c hc p hp hpid heq
      have h2 := (List.mem_filter.mp hc).2
      rw [Bool.not_eq_true'] at h2
      have hpin : p ∈ db.policies.filter (fun r => r.policyholder_id == hid) :=
        List.mem_filter.mpr ⟨hp, by simp [hpid]⟩
      have h3 : (db.policies.filter (fun r => r.policyholder_id == hid)).any
          (fun q => q.id == c.policy_id) = true :=
        List.any_eq_true.mpr ⟨p, hpin, by simp [heq]⟩
      rw [h3] at h2
      exact absurd h2 (by simp)
  · intro db pid h
    have hsnd : (delete_policy db pid).2 =
        { db with
          policies := db.policies.filter (fun r => r.id != pid),
          claims := db.claims.filter (fun c => c.policy_id != pid) } := by
      unfold delete_policy execute_transaction
      simp [h]
    refine ⟨?_, ?_, ?_⟩
    · unfold delete_policy execute_transaction
      simp [h]
    · rw [hsnd, List.all_eq_true]
      intro r hr
      exact (List.mem_filter.mp hr).2
    · intro cid c hnd hfind hcp
      unfold findCl at hfind
      have hcmem : c ∈ db.claims := List.mem_of_find?_eq_some hfind
      have hcid := List.find?_some hfind
      have hnone : findCl (delete_policy db pid).2.claims cid = none := by
        rw [hsnd]
        unfold findCl
        rw [List.find?_eq_none]
        intro x hx hxid
        have hxmem := (List.mem_filter.mp hx).1
        have hxpid := (List.mem_filter.mp hx).2
        have hxc : x = c := by
          refine List.inj_on_of_nodup_map hnd hxmem hcmem ?_
          have e1 : x.id = cid := by simpa using hxid
          have e2 : c.id = cid := by simpa using hcid
          rw [e1, e2]
        rw [hxc] at hxpid
        simp [hcp] at hxpid
      unfold get_claim execute_transaction get_claim_read
      simp [hnone]

/-- Witness for C9 on the sample store: deleting policyholder 1 empties the
dependent policies; deleting policy 1 removes claim 1, which then reads back
as not-found. -/
theorem cascade_delete_witness :
    sampleDB.policyholders.any (fun r => r.id == 1) = true ∧
    (delete_policyholder sampleDB 1).1 = .ok () ∧
    (delete_policyholder sampleDB 1).2.policies.all
      (fun r => r.policyholder_id != 1) = true ∧
    sampleDB.policies.any (fun r => r.id == 1) = true ∧
    (delete_policy sampleDB 1).1 = .ok () ∧
    (delete_policy sampleDB 1).2.claims.all
      (fun c => c.policy_id != 1) = true ∧
    (get_claim (delete_policy sampleDB 1).2 1).1 = .ok none :=
  ⟨by decide,
   (cascade_delete.1 sampleDB 1 (by decide)).1,
   (cascade_delete.1 sampleDB 1 (by decide)).2.2.1,
   by decide,
   (cascade_delete.2 sampleDB 1 (by decide)).1,
   (cascade_delete.2 sampleDB 1 (by decide)).2.1,
   (cascade_delete.2 sampleDB 1 (by decide)).2.2 1 sampleCl (by decide)
     (by decide) (by decide)⟩
